import Mathlib

/-!
Shallow embedding of the rosserial-rs link engine (src/codec.rs, src/lib.rs).
Byte streams are modelled as `List Nat` whose elements are byte values
(`< 256`); multi-byte reads and writes mirror the little-endian u8/u16/u32
conversions of the source under that invariant.
-/

namespace Rosserial

/-- Errors of the codec (src/codec.rs, `enum Error`). The `IoError` variant
wraps failures of the external transport and is omitted from the embedding. -/
inductive Error where
  | WrongProtocolVersion (v : Nat) : Error
  | InvalidLengthChecksum (c : Nat) : Error
  | InvalidMessageChecksum (c : Nat) : Error
  deriving DecidableEq, Repr

/-- A frame as seen on the wire (src/codec.rs, `struct RosSerialMsg`): `topic`
is `none` for the raw transmit-only variant, `msg` holds the payload bytes. -/
structure RosSerialMsg where
  topic : Option Nat
  msg : List Nat
  deriving DecidableEq, Repr

/-- Sync byte `0xff` (src/codec.rs, `HEADER`). -/
def HEADER : Nat := 255

/-- Protocol version byte `0xfe` (src/codec.rs, `PROTOCOL_VERSION_2`). -/
def PROTOCOL_VERSION_2 : Nat := 254

/-- Checksum over bytes (src/codec.rs, `calc_checksum`): running sum reduced
mod 256 at each step, exactly as the u16 accumulator in the source. -/
def calc_checksum (bytes : List Nat) : Nat :=
  bytes.foldl (fun c b => (c + b) % 256) 0

/-- Resynchronisation step of `decode` (src/codec.rs lines 85-91): drop all
bytes strictly before the first `0xff` and the `0xff` itself; `none` when no
sync byte is present (in which case `decode` retains the whole buffer). -/
def skip_to_sync : List Nat → Option (List Nat)
  | [] => none
  | b :: rest => if b = HEADER then some rest else skip_to_sync rest

/-- Final stage of `decode` (src/codec.rs lines 129-156): skip zero padding,
take the first non-zero byte as the message checksum, validate it over the
topic-id bytes, the payload and the checksum byte itself. -/
def read_msg_checksum (topic_id : Nat) (data rest : List Nat) :
    (Except Error (Option RosSerialMsg)) × List Nat :=
  match rest.dropWhile (fun b => b == 0) with
  | [] => (.ok none, [])
  | ck :: rest2 =>
    let checksum := calc_checksum (topic_id % 256 :: topic_id / 256 :: (data ++ [ck]))
    if checksum = 255 then (.ok (some ⟨some topic_id, data⟩), rest2)
    else (.error (.InvalidMessageChecksum checksum), rest2)

/-- Payload stage of `decode` (src/codec.rs lines 123-126). The length was
read by `try_get_i16_le`, so the cast `len as usize` sign-extends: a bit
pattern `≥ 32768` becomes `2 ^ 64 - 65536 + len_u`. -/
def read_payload (len_u topic_id : Nat) (rest : List Nat) :
    (Except Error (Option RosSerialMsg)) × List Nat :=
  let len_usize := if len_u < 32768 then len_u else 2 ^ 64 - 65536 + len_u
  if rest.length < len_usize then (.ok none, rest)
  else read_msg_checksum topic_id (rest.take len_usize) (rest.drop len_usize)

/-- Topic-id stage of `decode` (src/codec.rs lines 118-121): little-endian
u16; a short buffer is left as is (`try_get_u16_le` does not consume on
failure) and reported incomplete. -/
def read_topic (len_u : Nat) : List Nat → (Except Error (Option RosSerialMsg)) × List Nat
  | tlo :: thi :: rest => read_payload len_u (tlo + 256 * thi) rest
  | rest => (.ok none, rest)

/-- Length and length-checksum stage of `decode` (src/codec.rs lines 99-116). -/
def read_len : List Nat → (Except Error (Option RosSerialMsg)) × List Nat
  | lo :: hi :: rest =>
    match rest with
    | [] => (.ok none, [])
    | filler :: rest2 =>
      let checksum := calc_checksum [lo, hi, filler]
      if checksum = 255 then read_topic (lo + 256 * hi) rest2
      else (.error (.InvalidLengthChecksum checksum), rest2)
  | rest => (.ok none, rest)

/-- Decoder (src/codec.rs, `RosSerialMsgCodec::decode`). The mutable
`BytesMut` buffer is made explicit: the result pairs the decoding outcome
with the bytes remaining in the buffer after the call. -/
def decode (src : List Nat) : (Except Error (Option RosSerialMsg)) × List Nat :=
  match skip_to_sync src with
  | none => (.ok none, src)
  | some rest =>
    match rest with
    | [] => (.ok none, [])
    | v :: rest2 =>
      if v = PROTOCOL_VERSION_2 then read_len rest2
      else (.error (.WrongProtocolVersion v), rest2)

/-- Encoder (src/codec.rs, `RosSerialMsgCodec::encode`): bytes appended to
the output buffer. A `none` topic emits the raw variant (sync, version,
payload verbatim). Note the emitted length checksum is
`calc_checksum length_bytes` with no `255 -` complement, unlike the message
checksum below it. -/
def encode (item : RosSerialMsg) : List Nat :=
  match item.topic with
  | none => HEADER :: PROTOCOL_VERSION_2 :: item.msg
  | some t =>
    let len := item.msg.length % 65536
    let length_bytes := [len % 256, len / 256]
    let length_checksum := calc_checksum length_bytes
    let topic_bytes := [t % 256, t / 256 % 256]
    let msg_checksum := 255 - calc_checksum (topic_bytes ++ item.msg)
    HEADER :: PROTOCOL_VERSION_2 ::
      (length_bytes ++ (length_checksum :: (topic_bytes ++ (item.msg ++ [msg_checksum]))))

/-- A regular frame for topic `t` and payload `p` laid out exactly as
`RosSerialMsgCodec::decode` accepts it: sync, version, length (LE u16),
a length-checksum byte making that equation sum to 255, topic (LE u16),
payload, and a message-checksum byte making that equation sum to 255. This
is the wire layout the spec's encoder contract describes; the implemented
`encode` differs in the length-checksum byte (it omits the `255 -`). -/
def wire_frame (t : Nat) (p : List Nat) : List Nat :=
  let lo := p.length % 256
  let hi := p.length / 256 % 256
  let tlo := t % 256
  let thi := t / 256 % 256
  HEADER :: PROTOCOL_VERSION_2 :: lo :: hi :: (255 - (lo + hi) % 256) ::
    tlo :: thi :: (p ++ [255 - (tlo + thi + p.sum) % 256])

/-- The request-topics probe (src/lib.rs, `request_topics` / `send_raw`):
a raw message whose payload is the six bytes `00 00 FF 00 00 FF`. -/
def request_topics_msg : RosSerialMsg :=
  ⟨none, [0, 0, 255, 0, 0, 255]⟩

/-- First bytes emitted on the wire by `RosSerial::new` (src/lib.rs lines
118-128): `new` sends only the `request_topics` probe before returning, and
the framed codec encodes it as a raw frame. -/
def new_wire_bytes : List Nat := encode request_topics_msg

/-! ### ROS message (de)serialization used by the engine

Modelled from the spec: the `rosrust_msg` decoders and encoders used by
`handle_msg` live in an external crate. Per ROS 1 serialization, integers
are little-endian and a string or array is a u32 length prefix followed by
its elements; strings are kept as byte lists (UTF-8 validity is not
modelled). -/

/-- Modelled from the spec: read a little-endian u16 (ROS serialization,
external `rosrust` crate). -/
def read_u16 : List Nat → Option (Nat × List Nat)
  | a :: b :: rest => some (a + 256 * b, rest)
  | _ => none

/-- Modelled from the spec: read a little-endian u32 (ROS serialization,
external `rosrust` crate). -/
def read_u32 : List Nat → Option (Nat × List Nat)
  | a :: b :: c :: d :: rest =>
    some (a + 256 * b + 65536 * c + 16777216 * d, rest)
  | _ => none

/-- Modelled from the spec: read a length-prefixed string (ROS
serialization, external `rosrust` crate); the bytes are kept opaque. -/
def read_string (l : List Nat) : Option (List Nat × List Nat) :=
  match read_u32 l with
  | none => none
  | some (n, rest) =>
    if rest.length < n then none else some (rest.take n, rest.drop n)

/-- Modelled from the spec: write a little-endian u32 (ROS serialization,
external `rosrust` crate; used for the `Time` reply payload). -/
def u32_le (n : Nat) : List Nat :=
  [n % 256, n / 256 % 256, n / 65536 % 256, n / 16777216 % 256]

/-- Topic metadata advertised by the device (spec section 3; the concrete
`rosserial_msgs::TopicInfo` type is external). -/
structure TopicInfo where
  topic_id : Nat
  topic_name : List Nat
  message_type : List Nat
  md5sum : List Nat
  buffer_size : Nat
  deriving DecidableEq, Repr

/-- Modelled from the spec: `rosserial_msgs::TopicInfo::decode` (external
crate): u16 topic id, three strings (name, type, md5), u32 buffer size;
trailing bytes are ignored. -/
def decode_topic_info (l : List Nat) : Option TopicInfo :=
  match read_u16 l with
  | none => none
  | some (id, r1) =>
    match read_string r1 with
    | none => none
    | some (name, r2) =>
      match read_string r2 with
      | none => none
      | some (ty, r3) =>
        match read_string r3 with
        | none => none
        | some (md5, r4) =>
          match read_u32 r4 with
          | none => none
          | some (buf, _) => some ⟨id, name, ty, md5, buf⟩

/-- Modelled from the spec: `rosserial_msgs::Log::decode` (external crate):
a level byte followed by the message string. -/
def decode_log (l : List Nat) : Option (Nat × List Nat) :=
  match l with
  | lvl :: rest =>
    match read_string rest with
    | none => none
    | some (s, _) => some (lvl, s)
  | [] => none

/-! ### Link engine (src/lib.rs) -/

/-- Control topic ids (constants of the external `rosserial_msgs::TopicInfo`
message, values as listed in the spec sections 4.C and 9). -/
def ID_PUBLISHER : Nat := 0

/-- Control topic id `ID_SUBSCRIBER` (see `ID_PUBLISHER`). -/
def ID_SUBSCRIBER : Nat := 1

/-- Control topic id `ID_SERVICE_SERVER` (see `ID_PUBLISHER`). -/
def ID_SERVICE_SERVER : Nat := 2

/-- Control topic id `ID_SERVICE_CLIENT` (see `ID_PUBLISHER`). -/
def ID_SERVICE_CLIENT : Nat := 4

/-- Control topic id `ID_PARAMETER_REQUEST` (see `ID_PUBLISHER`). -/
def ID_PARAMETER_REQUEST : Nat := 6

/-- Control topic id `ID_LOG` (see `ID_PUBLISHER`). -/
def ID_LOG : Nat := 7

/-- Control topic id `ID_TIME` (see `ID_PUBLISHER`). -/
def ID_TIME : Nat := 10

/-- Control topic id `ID_TX_STOP` (see `ID_PUBLISHER`). -/
def ID_TX_STOP : Nat := 11

/-- Observable effects of one engine step, in order of occurrence:
`serial m` is a message handed to the framed serial sink, `publish` a
payload forwarded to a registered network publisher handle, the remaining
constructors are the log records the handlers emit. -/
inductive Output where
  | serial (m : RosSerialMsg) : Output
  | publish (topic : Nat) (payload : List Nat) : Output
  | hostLog (level : Nat) (msg : List Nat) : Output
  | errorUnknownLogLevel (level : Nat) (msg : List Nat) : Output
  | warnUnimplementedService (id : Nat) : Output
  | warnUnknownTopic (t : Nat) : Output
  | warnNoTopic : Output
  deriving DecidableEq, Repr

/-- Errors a handler can raise (src/lib.rs, `enum Error`): the embedding
keeps only the variant reachable in the model, a failed `rosrust_msg`
payload decode (`Error::RosError`). I/O and adapter failures are external. -/
inductive EngineError where
  | rosDecodeError : EngineError
  deriving DecidableEq, Repr

/-- State of the engine (src/lib.rs, `struct RosSerial`, minus the serial
stream): `publishers` maps a topic id to the registered publisher entry
(the `rosrust::Publisher` handle is abstracted by the `TopicInfo` it was
created from), `subscribers` maps a topic id to the pending queue of the
`mpsc::Receiver` endpoint (payloads pushed by the network side). -/
structure EngineState where
  publishers : List (Nat × TopicInfo)
  subscribers : List (Nat × List (List Nat))
  deriving DecidableEq, Repr

/-- The engine state `RosSerial::new` starts from: both maps empty. -/
def emptyState : EngineState := ⟨[], []⟩

/-- Insertion into one of the engine's `HashMap`s: replaces any previous
entry for the key. -/
def insertKV {α : Type} (k : Nat) (v : α) (m : List (Nat × α)) : List (Nat × α) :=
  (k, v) :: m.filter (fun kv => kv.1 ≠ k)

/-- Handler for `ID_TIME` frames (src/lib.rs, `handle_time_request`): the
wall clock `(sec, nsec)` is an input of the model (external
`rosrust::wall_time::now`), and the reply payload is its ROS `Time`
encoding, two little-endian u32 values. -/
def handle_time_request (clock : Nat × Nat) (st : EngineState) :
    Except EngineError (EngineState × List Output) :=
  .ok (st, [.serial ⟨some ID_TIME, u32_le clock.1 ++ u32_le clock.2⟩])

/-- Handler for `ID_LOG` frames (src/lib.rs, `handle_logging_request`): a
failed payload decode aborts with an error; the five known levels 0-4
(ROSDEBUG, INFO, WARN, ERROR, FATAL) emit a host log record at the matching
severity, any other level an error record. -/
def handle_logging_request (st : EngineState) (m : RosSerialMsg) :
    Except EngineError (EngineState × List Output) :=
  match decode_log m.msg with
  | none => .error .rosDecodeError
  | some (lvl, s) =>
    if lvl = 0 ∨ lvl = 1 ∨ lvl = 2 ∨ lvl = 3 ∨ lvl = 4 then
      .ok (st, [.hostLog lvl s])
    else
      .ok (st, [.errorUnknownLogLevel lvl s])

/-- Handler for `ID_PUBLISHER` frames (src/lib.rs, `setup_publisher`):
decode the `TopicInfo` payload, create the network publisher (external
`rosrust::publish_with_description`, modelled as succeeding) and store it
under the advertised topic id. -/
def setup_publisher (st : EngineState) (m : RosSerialMsg) :
    Except EngineError (EngineState × List Output) :=
  match decode_topic_info m.msg with
  | none => .error .rosDecodeError
  | some ti => .ok ({ st with publishers := insertKV ti.topic_id ti st.publishers }, [])

/-- Handler for `ID_SUBSCRIBER` frames (src/lib.rs, `setup_subscriber`):
decode the `TopicInfo` payload, install a fresh (empty) queue endpoint
under the advertised topic id and create the network subscription
(external `rosrust::subscribe`, modelled as succeeding). -/
def setup_subscriber (st : EngineState) (m : RosSerialMsg) :
    Except EngineError (EngineState × List Output) :=
  match decode_topic_info m.msg with
  | none => .error .rosDecodeError
  | some ti => .ok ({ st with subscribers := insertKV ti.topic_id [] st.subscribers }, [])

/-- Handler for `ID_PARAMETER_REQUEST` frames (src/lib.rs,
`handle_parameter_request`): decode the request (a string parameter name)
and reply on the same id with an empty `RequestParamRes` (three empty
arrays, i.e. twelve zero bytes). -/
def handle_parameter_request (st : EngineState) (m : RosSerialMsg) :
    Except EngineError (EngineState × List Output) :=
  match read_string m.msg with
  | none => .error .rosDecodeError
  | some _ => .ok (st, [.serial ⟨some ID_PARAMETER_REQUEST, List.replicate 12 0⟩])

/-- Dispatch of one received frame (src/lib.rs, `handle_msg`). The source
matches on disjoint literal topic ids (rendered here as an equality chain
in the same order), then falls through to the data-id branch: a registered
publisher receives the payload, otherwise a warning is logged and the
request-topics probe is re-sent. A `none` topic only logs a warning. -/
def handle_msg (clock : Nat × Nat) (st : EngineState) (m : RosSerialMsg) :
    Except EngineError (EngineState × List Output) :=
  match m.topic with
  | none => .ok (st, [.warnNoTopic])
  | some t =>
    if t = ID_TIME then handle_time_request clock st
    else if t = ID_LOG then handle_logging_request st m
    else if t = ID_PUBLISHER then setup_publisher st m
    else if t = ID_SUBSCRIBER then setup_subscriber st m
    else if t = ID_PARAMETER_REQUEST then handle_parameter_request st m
    else if t = ID_SERVICE_SERVER + ID_PUBLISHER then .ok (st, [.warnUnimplementedService t])
    else if t = ID_SERVICE_SERVER + ID_SUBSCRIBER then .ok (st, [.warnUnimplementedService t])
    else if t = ID_SERVICE_CLIENT + ID_PUBLISHER then .ok (st, [.warnUnimplementedService t])
    else if t = ID_SERVICE_CLIENT + ID_SUBSCRIBER then .ok (st, [.warnUnimplementedService t])
    else
      match st.publishers.lookup t with
      | some _ => .ok (st, [.publish t m.msg])
      | none => .ok (st, [.warnUnknownTopic t, .serial request_topics_msg])

/-- Main loop (src/lib.rs, `run`): `while let Some(Ok(msg)) = next().await`
over the framed stream, dispatching each frame through `handle_msg`. The
stream is modelled as the list of items the codec yields: the loop exits
with `Ok(())` at end of stream and also when the item is a decode error
(the `while let` pattern fails to match), and propagates a handler error
with `?`. The result collects the final state, the outputs in order, and
the returned value. -/
def run (clock : Nat × Nat) (st : EngineState) :
    List (Except Error RosSerialMsg) → EngineState × List Output × Except EngineError Unit
  | [] => (st, [], .ok ())
  | .error _ :: _ => (st, [], .ok ())
  | .ok m :: rest =>
    match handle_msg clock st m with
    | .error e => (st, [], .error e)
    | .ok (st', outs) =>
      let r := run clock st' rest
      (r.1, outs ++ r.2.1, r.2.2)

/-! ### Helper lemmas about the codec -/

theorem foldl_mod_eq (l : List Nat) :
    ∀ c : Nat, c < 256 → l.foldl (fun c b => (c + b) % 256) c = (c + l.sum) % 256 := by
  induction l with
  | nil => intro c hc; simp [Nat.mod_eq_of_lt hc]
  | cons b t ih =>
    intro c hc
    simp only [List.foldl_cons, List.sum_cons]
    rw [ih _ (Nat.mod_lt _ (by norm_num))]
    omega

theorem calc_checksum_eq_sum (l : List Nat) : calc_checksum l = l.sum % 256 := by
  simpa using foldl_mod_eq l 0 (by norm_num)

theorem decode_header (l : List Nat) :
    decode (HEADER :: PROTOCOL_VERSION_2 :: l) = read_len l := by
  simp [decode, skip_to_sync, HEADER, PROTOCOL_VERSION_2]

theorem read_len_valid (lo hi f : Nat) (rest : List Nat)
    (h : (lo + hi + f) % 256 = 255) :
    read_len (lo :: hi :: f :: rest) = read_topic (lo + 256 * hi) rest := by
  have hc : calc_checksum [lo, hi, f] = (lo + hi + f) % 256 := by
    rw [calc_checksum_eq_sum]; simp; ring_nf
  simp [read_len, hc, h]

theorem read_len_invalid (lo hi f : Nat) (rest : List Nat)
    (h : (lo + hi + f) % 256 ≠ 255) :
    read_len (lo :: hi :: f :: rest) =
      (.error (.InvalidLengthChecksum ((lo + hi + f) % 256)), rest) := by
  have hc : calc_checksum [lo, hi, f] = (lo + hi + f) % 256 := by
    rw [calc_checksum_eq_sum]; simp; ring_nf
  simp [read_len, hc, h]

theorem read_topic_cons (len_u tlo thi : Nat) (rest : List Nat) :
    read_topic len_u (tlo :: thi :: rest) = read_payload len_u (tlo + 256 * thi) rest :=
  rfl

theorem read_payload_small (len_u tid : Nat) (rest : List Nat)
    (h1 : len_u < 32768) (h2 : len_u ≤ rest.length) :
    read_payload len_u tid rest =
      read_msg_checksum tid (rest.take len_u) (rest.drop len_u) := by
  simp [read_payload, h1, Nat.not_lt.mpr h2]

theorem read_payload_big (len_u tid : Nat) (rest : List Nat)
    (h1 : 32768 ≤ len_u) (h2 : rest.length < 2 ^ 64 - 65536 + len_u) :
    read_payload len_u tid rest = (.ok none, rest) := by
  simp only [read_payload, Nat.not_lt.mpr h1, if_false]
  rw [if_pos (by omega)]

theorem calc_checksum_pair (a b : Nat) : calc_checksum [a, b] = (a + b) % 256 := by
  rw [calc_checksum_eq_sum]; simp

theorem encode_some_shape (t : Nat) (p : List Nat) :
    encode ⟨some t, p⟩ = HEADER :: PROTOCOL_VERSION_2 ::
      ((p.length % 65536) % 256 :: (p.length % 65536) / 256 ::
        ((p.length % 65536) % 256 + (p.length % 65536) / 256) % 256 ::
        (t % 256 :: t / 256 % 256 ::
          (p ++ [255 - calc_checksum (t % 256 :: t / 256 % 256 :: p)]))) := by
  simp [encode, calc_checksum_pair]

/-! ### Claim theorems about the codec -/

/-- C1: decoding the encoder's own output never yields the frame back: the
encoder emits `calc_checksum length_bytes` as the length-checksum byte
(src/codec.rs line 175, missing the `255 -` complement that the message
checksum on line 183 has), so the decoder's length-checksum validation
fails on every regular frame the encoder produces, with an
`InvalidLengthChecksum` error instead of the frame. -/
theorem c1_decode_encode_always_fails (t : Nat) (p : List Nat) :
    ∃ c, (decode (encode ⟨some t, p⟩)).1 = .error (.InvalidLengthChecksum c) := by
  refine ⟨((p.length % 65536) % 256 + (p.length % 65536) / 256 +
    ((p.length % 65536) % 256 + (p.length % 65536) / 256) % 256) % 256, ?_⟩
  rw [encode_some_shape, decode_header, read_len_invalid _ _ _ _ (by omega)]

/-- C2: of the two checksum equations, only the message one holds on the
encoder's output. Every emitted regular frame has the shape
`sync :: version :: lo :: hi :: lc :: tail` where the length-checksum
equation `(lo + hi + lc) % 256 = 255` is violated (the emitted `lc` is
`(lo + hi) % 256`, so the sum is even), while the trailing bytes
(topic id, payload, message checksum) do satisfy `tail.sum % 256 = 255`. -/
theorem c2_only_message_checksum_holds (t : Nat) (p : List Nat) :
    ∃ lo hi lc tail,
      encode ⟨some t, p⟩ = HEADER :: PROTOCOL_VERSION_2 :: lo :: hi :: lc :: tail ∧
      (lo + hi + lc) % 256 ≠ 255 ∧ tail.sum % 256 = 255 := by
  have hcc : calc_checksum (t % 256 :: t / 256 % 256 :: p) =
      (t % 256 + (t / 256 % 256 + p.sum)) % 256 := by
    rw [calc_checksum_eq_sum]; simp
  refine ⟨(p.length % 65536) % 256, (p.length % 65536) / 256,
    ((p.length % 65536) % 256 + (p.length % 65536) / 256) % 256,
    t % 256 :: t / 256 % 256 ::
      (p ++ [255 - calc_checksum (t % 256 :: t / 256 % 256 :: p)]),
    encode_some_shape t p, by omega, ?_⟩
  simp [hcc, List.sum_append]
  omega

/-- C8: the first bytes `RosSerial::new` puts on the wire are exactly
`FF FE 00 00 FF 00 00 FF`: the sync byte, the protocol version, and the
six-byte request-topics probe copied verbatim with no length or checksum
bytes (the probe is a raw message). -/
theorem c8_new_first_bytes :
    new_wire_bytes = [255, 254, 0, 0, 255, 0, 0, 255] := rfl

/-- C5 (amended): the decoder reads the length field with `try_get_i16_le`,
so only lengths `0..=32767` behave as unsigned. For a fully available
well-formed frame whose payload length is below 32768 and whose message
checksum byte is non-zero, `decode` extracts exactly the payload and
returns the frame, consuming the whole buffer. -/
theorem c5_decode_wire_frame (t : Nat) (p : List Nat) (ht : t < 65536)
    (hp : p.length < 32768)
    (hck : (t % 256 + t / 256 % 256 + p.sum) % 256 ≠ 255) :
    decode (wire_frame t p) = (.ok (some ⟨some t, p⟩), []) := by
  have hdiv : t / 256 % 256 = t / 256 := Nat.mod_eq_of_lt (by omega)
  have h1 : wire_frame t p = HEADER :: PROTOCOL_VERSION_2 ::
      p.length % 256 :: p.length / 256 % 256 ::
      (255 - (p.length % 256 + p.length / 256 % 256) % 256) ::
      (t % 256 :: t / 256 % 256 ::
        (p ++ [255 - (t % 256 + t / 256 % 256 + p.sum) % 256])) := rfl
  rw [h1, decode_header, read_len_valid _ _ _ _ (by omega), read_topic_cons]
  rw [show p.length % 256 + 256 * (p.length / 256 % 256) = p.length from by omega]
  rw [show t % 256 + 256 * (t / 256 % 256) = t from by omega]
  rw [read_payload_small _ _ _ hp (by simp)]
  rw [List.take_left, List.drop_left]
  have hmcne : ((255 - (t % 256 + t / 256 % 256 + p.sum) % 256 : Nat) == 0) = false := by
    simp; omega
  have hcs : calc_checksum (t % 256 :: t / 256 ::
      (p ++ [255 - (t % 256 + t / 256 % 256 + p.sum) % 256])) = 255 := by
    rw [calc_checksum_eq_sum]; simp [List.sum_append]; omega
  simp [read_msg_checksum, hmcne, hcs]

/-- Payload of the C5 counterexample: 32768 bytes of value 1, the smallest
payload length whose little-endian bit pattern is a negative i16. -/
def c5_payload : List Nat := List.replicate 32768 1

theorem c5_payload_length : c5_payload.length = 32768 := by
  rw [c5_payload, List.length_replicate]

/-- C5 (counterexample): the claim fails at payload length 32768. The frame
below is well formed and fully available, yet `decode` reports incomplete:
the length bit pattern `0x8000` is a negative i16 and `len as usize`
sign-extends to `2^64 - 32768`, which no buffer can satisfy. -/
theorem c5_counterexample_len_32768 :
    (decode (wire_frame 100 c5_payload)).1 = .ok none := by
  have h1 : wire_frame 100 c5_payload = HEADER :: PROTOCOL_VERSION_2 ::
      0 :: 128 :: 127 ::
      (100 :: 0 :: (c5_payload ++ [255 - (100 + 0 + c5_payload.sum) % 256])) := by
    simp only [wire_frame, c5_payload_length]
  have h2 : decode (wire_frame 100 c5_payload) =
      (.ok none, c5_payload ++ [255 - (100 + 0 + c5_payload.sum) % 256]) := by
    rw [h1, decode_header, read_len_valid _ _ _ _ (by norm_num), read_topic_cons]
    exact read_payload_big _ _ _ (by norm_num)
      (by rw [List.length_append, c5_payload_length]; norm_num)
  rw [h2]

/-- C10 (amended): a frame whose topic-id bytes plus payload sum to 255 mod
256 has message checksum byte 0, and the decoder can never return it: fed
the frame's well-formed wire bytes it reports incomplete (the zero checksum
byte is consumed as padding by the zero-skip loop), and any subsequently
arriving non-zero byte is taken as the checksum and fails validation with
`InvalidMessageChecksum`. -/
theorem c10_zero_checksum_frame_undecodable (t : Nat) (p : List Nat) (b : Nat)
    (ht : t < 65536) (hp : p.length < 32768)
    (hck : (t % 256 + t / 256 % 256 + p.sum) % 256 = 255)
    (hb0 : b ≠ 0) (hb : b < 256) :
    decode (wire_frame t p) = (.ok none, []) ∧
    (decode (wire_frame t p ++ [b])).1 =
      .error (.InvalidMessageChecksum ((255 + b) % 256)) := by
  have hdiv : t / 256 % 256 = t / 256 := Nat.mod_eq_of_lt (by omega)
  have hmc0 : (255 - (t % 256 + t / 256 % 256 + p.sum) % 256 : Nat) = 0 := by omega
  constructor
  · have h1 : wire_frame t p = HEADER :: PROTOCOL_VERSION_2 ::
        p.length % 256 :: p.length / 256 % 256 ::
        (255 - (p.length % 256 + p.length / 256 % 256) % 256) ::
        (t % 256 :: t / 256 % 256 ::
          (p ++ [255 - (t % 256 + t / 256 % 256 + p.sum) % 256])) := rfl
    rw [h1, hmc0, decode_header, read_len_valid _ _ _ _ (by omega), read_topic_cons]
    rw [show p.length % 256 + 256 * (p.length / 256 % 256) = p.length from by omega]
    rw [show t % 256 + 256 * (t / 256 % 256) = t from by omega]
    rw [read_payload_small _ _ _ hp (by simp)]
    rw [List.take_left, List.drop_left]
    simp [read_msg_checksum]
  · have h2 : wire_frame t p ++ [b] = HEADER :: PROTOCOL_VERSION_2 ::
        p.length % 256 :: p.length / 256 % 256 ::
        (255 - (p.length % 256 + p.length / 256 % 256) % 256) ::
        (t % 256 :: t / 256 % 256 :: (p ++ [0, b])) := by
      rw [show ([0, b] : List Nat) = [0] ++ [b] from rfl, ← List.append_assoc, ← hmc0]
      rfl
    rw [h2, decode_header, read_len_valid _ _ _ _ (by omega), read_topic_cons]
    rw [show p.length % 256 + 256 * (p.length / 256 % 256) = p.length from by omega]
    rw [show t % 256 + 256 * (t / 256 % 256) = t from by omega]
    rw [read_payload_small _ _ _ hp (by simp)]
    rw [List.take_left, List.drop_left]
    have hcs : calc_checksum (t % 256 :: t / 256 :: (p ++ [b])) = (255 + b) % 256 := by
      rw [calc_checksum_eq_sum]; simp [List.sum_append]; omega
    have hne : (255 + b) % 256 ≠ 255 := by omega
    simp [read_msg_checksum, hb0, hcs, hne]

/-- C10 (counterexample to the claim as stated): the frame with topic 100
and payload `[155]` has topic-id bytes plus payload summing to 255 mod 256,
but fed exactly the ENCODER's output for it the decoder does not report
incomplete: the encoder's length-checksum bug makes decoding fail with
`InvalidLengthChecksum 2` before the zero-skip loop is ever reached. -/
theorem c10_counterexample_encoder_output :
    (decode (encode ⟨some 100, [155]⟩)).1 = .error (.InvalidLengthChecksum 2) := rfl

/-- C5 witness: the amended statement at topic 100, payload `[1, 2, 3]`. -/
theorem c5_witness :
    decode (wire_frame 100 [1, 2, 3]) = (.ok (some ⟨some 100, [1, 2, 3]⟩), []) :=
  c5_decode_wire_frame 100 [1, 2, 3] (by norm_num) (by norm_num) (by norm_num)

/-- C10 witness: the amended statement at topic 100, payload `[155]`,
trailing byte 7. -/
theorem c10_witness :
    decode (wire_frame 100 [155]) = (.ok none, []) ∧
    (decode (wire_frame 100 [155] ++ [7])).1 =
      .error (.InvalidMessageChecksum ((255 + 7) % 256)) :=
  c10_zero_checksum_frame_undecodable 100 [155] 7 (by norm_num) (by norm_num)
    (by norm_num) (by norm_num) (by norm_num)

/-- First chunk of the split frame for C6: sync, version, length 2 with a
correct length checksum, and topic id 100 — the frame's first seven bytes. -/
def c6_chunk1 : List Nat := [255, 254, 2, 0, 253, 100, 0]

/-- Second chunk of the split frame for C6: the two payload bytes and the
correct message checksum — the frame's last three bytes. -/
def c6_chunk2 : List Nat := [1, 2, 152]

/-- C6: splitting a valid encoded frame into chunks loses it. Fed whole,
the ten bytes decode to the frame (first conjunct). Fed as two chunks, the
first call consumes all seven header bytes and reports incomplete with an
EMPTY buffer — the consumed bytes are discarded, not buffered — so the
second call sees only the payload bytes, finds no sync byte, and reports
incomplete again: the frame is never yielded. -/
theorem c6_chunked_feed_loses_frame :
    decode (c6_chunk1 ++ c6_chunk2) = (.ok (some ⟨some 100, [1, 2]⟩), []) ∧
    decode c6_chunk1 = (.ok none, []) ∧
    decode c6_chunk2 = (.ok none, c6_chunk2) :=
  ⟨rfl, rfl, rfl⟩

/-! ### Claim theorems about the link engine -/

/-- C3 (amended): protocol errors from the decoder are not logged-and-
skipped. The `while let Some(Ok(msg))` pattern in `run` fails to match on
the first decoder error, so `run` terminates at once with `Ok(())`,
handling neither the error nor any subsequent frames; `run` otherwise ends
at end-of-stream (with `Ok`) or propagates a handler error (with `Err`). -/
theorem c3_run_stops_at_decode_error (clock : Nat × Nat) (st : EngineState)
    (e : Error) (rest : List (Except Error RosSerialMsg)) :
    run clock st (.error e :: rest) = (st, [], .ok ()) := rfl

/-- C3 (counterexample): a stream holding a `WrongProtocolVersion` error
followed by a valid TIME request produces NO outputs — the valid frame
after the corrupt one is never dispatched — although the same TIME request
alone is answered with a time reply. `run` did not continue past the
protocol error. -/
theorem c3_counterexample_error_ends_run :
    run (0, 0) emptyState [.error (.WrongProtocolVersion 0), .ok ⟨some ID_TIME, []⟩] =
      (emptyState, [], .ok ()) ∧
    run (0, 0) emptyState [.ok ⟨some ID_TIME, []⟩] =
      (emptyState, [.serial ⟨some ID_TIME, [0, 0, 0, 0, 0, 0, 0, 0]⟩], .ok ()) :=
  ⟨rfl, rfl⟩

theorem handle_msg_serial_topics (clock : Nat × Nat) (st : EngineState)
    (msg : RosSerialMsg) (st2 : EngineState) (outs : List Output) (m : RosSerialMsg)
    (heq : handle_msg clock st msg = .ok (st2, outs))
    (hm : Output.serial m ∈ outs) :
    m.topic = none ∨ m.topic = some ID_PARAMETER_REQUEST ∨ m.topic = some ID_TIME := by
  obtain ⟨topic, payload⟩ := msg
  cases topic with
  | none =>
    simp only [handle_msg] at heq
    cases heq
    simp at hm
  | some t =>
    simp only [handle_msg] at heq
    split_ifs at heq
    · -- ID_TIME
      simp only [handle_time_request] at heq
      cases heq
      simp at hm
      subst hm
      right; right; rfl
    · -- ID_LOG
      rcases hd : decode_log payload with - | ⟨lvl, s⟩ <;>
        simp only [handle_logging_request, hd] at heq
      · cases heq
      · split_ifs at heq <;> cases heq <;> simp at hm
    · -- ID_PUBLISHER
      rcases hd : decode_topic_info payload with - | ti <;>
        simp only [setup_publisher, hd] at heq
      · cases heq
      · cases heq; simp at hm
    · -- ID_SUBSCRIBER
      rcases hd : decode_topic_info payload with - | ti <;>
        simp only [setup_subscriber, hd] at heq
      · cases heq
      · cases heq; simp at hm
    · -- ID_PARAMETER_REQUEST
      rcases hd : read_string payload with - | s <;>
        simp only [handle_parameter_request, hd] at heq
      · cases heq
      · cases heq
        simp at hm
        subst hm
        right; left; rfl
    · cases heq; simp at hm
    · cases heq; simp at hm
    · cases heq; simp at hm
    · cases heq; simp at hm
    · -- data id
      rcases hl : st.publishers.lookup t with - | pub <;> simp only [hl] at heq
      · cases heq
        simp at hm
        subst hm
        left; rfl
      · cases heq; simp at hm

/-- C4: the run loop never forwards subscriber-queue messages to the
device. Every message `run` hands to the serial sink is the raw probe
(topic `none`), a parameter reply (topic 6) or a time reply (topic 10);
in particular no regular frame carrying a registered subscriber's topic id
is ever emitted, whatever the stream and however many messages are queued
in `subscribers` — the queues are installed by `setup_subscriber` but
never read. -/
theorem c4_no_subscriber_forwarding (clock : Nat × Nat) (st : EngineState)
    (items : List (Except Error RosSerialMsg)) (m : RosSerialMsg)
    (hm : Output.serial m ∈ (run clock st items).2.1) :
    m.topic = none ∨ m.topic = some ID_PARAMETER_REQUEST ∨ m.topic = some ID_TIME := by
  induction items generalizing st with
  | nil => simp [run] at hm
  | cons item rest ih =>
    cases item with
    | error e => simp [run] at hm
    | ok msg =>
      simp only [run] at hm
      rcases heq : handle_msg clock st msg with e | ⟨st2, outs⟩ <;> rw [heq] at hm
      · simp at hm
      · simp only [List.mem_append] at hm
        rcases hm with hm | hm
        · exact handle_msg_serial_topics clock st msg st2 outs m heq hm
        · exact ih st2 hm

/-- C4 witness: the theorem applied to the one-frame stream holding a TIME
request, whose reply is a serial output of `run`. -/
theorem c4_witness :
    (⟨some ID_TIME, [0, 0, 0, 0, 0, 0, 0, 0]⟩ : RosSerialMsg).topic = none ∨
    (⟨some ID_TIME, [0, 0, 0, 0, 0, 0, 0, 0]⟩ : RosSerialMsg).topic = some ID_PARAMETER_REQUEST ∨
    (⟨some ID_TIME, [0, 0, 0, 0, 0, 0, 0, 0]⟩ : RosSerialMsg).topic = some ID_TIME :=
  c4_no_subscriber_forwarding (0, 0) emptyState [.ok ⟨some ID_TIME, []⟩] _ (by decide)

/-- C7 (counterexample): a received frame with topic 11 (`ID_TX_STOP`) is
not ignored: `handle_msg` has no arm for id 11, so the frame falls into the
data-id branch, and with no publisher registered under 11 the engine logs
the unknown-topic warning and re-emits the request-topics probe. -/
theorem c7_counterexample_tx_stop_emits_probe :
    handle_msg (0, 0) emptyState ⟨some ID_TX_STOP, []⟩ =
      .ok (emptyState, [.warnUnknownTopic ID_TX_STOP, .serial request_topics_msg]) := rfl

/-- C7 (amended): topic 11 (`ID_TX_STOP`) is handled as a data id, not
ignored: when no publisher is registered under id 11, the frame causes no
registration and no reply frame, but it does produce the unknown-topic
warning and a re-emission of the request-topics probe (state unchanged). -/
theorem c7_tx_stop_is_data_id (clock : Nat × Nat) (st : EngineState) (p : List Nat)
    (h : st.publishers.lookup ID_TX_STOP = none) :
    handle_msg clock st ⟨some ID_TX_STOP, p⟩ =
      .ok (st, [.warnUnknownTopic ID_TX_STOP, .serial request_topics_msg]) := by
  have h' : st.publishers.lookup 11 = none := h
  simp only [handle_msg, ID_TX_STOP, ID_TIME, ID_LOG, ID_PUBLISHER, ID_SUBSCRIBER,
    ID_PARAMETER_REQUEST, ID_SERVICE_SERVER, ID_SERVICE_CLIENT]
  norm_num
  rw [h']

/-- C7 witness: the amended statement at the empty engine state with a
one-byte payload. -/
theorem c7_witness :
    handle_msg (0, 0) emptyState ⟨some ID_TX_STOP, [5]⟩ =
      .ok (emptyState, [.warnUnknownTopic ID_TX_STOP, .serial request_topics_msg]) :=
  c7_tx_stop_is_data_id (0, 0) emptyState [5] rfl

/-- C9: a frame whose topic id is a data id (none of the control ids
0-7, 10, 11) with no publisher registered under it makes the engine log the
unknown-topic warning and re-send the six-byte request-topics probe, and
leaves the registry (the whole engine state) unchanged. -/
theorem c9_unknown_data_id_probes (clock : Nat × Nat) (st : EngineState)
    (t : Nat) (p : List Nat)
    (hctrl : t ∉ ([0, 1, 2, 3, 4, 5, 6, 7, 10, 11] : List Nat))
    (hpub : st.publishers.lookup t = none) :
    handle_msg clock st ⟨some t, p⟩ =
      .ok (st, [.warnUnknownTopic t, .serial request_topics_msg]) := by
  simp only [List.mem_cons, List.not_mem_nil, or_false, not_or] at hctrl
  obtain ⟨h0, h1, h2, h3, h4, h5, h6, h7, h10, h11⟩ := hctrl
  simp only [handle_msg, ID_TIME, ID_LOG, ID_PUBLISHER, ID_SUBSCRIBER,
    ID_PARAMETER_REQUEST, ID_SERVICE_SERVER, ID_SERVICE_CLIENT]
  norm_num [h0, h1, h2, h3, h4, h5, h6, h7, h10]
  rw [hpub]

/-- C9 witness: the statement at topic id 202 on the empty engine state. -/
theorem c9_witness :
    handle_msg (0, 0) emptyState ⟨some 202, []⟩ =
      .ok (emptyState, [.warnUnknownTopic 202, .serial request_topics_msg]) :=
  c9_unknown_data_id_probes (0, 0) emptyState 202 [] (by decide) rfl

end Rosserial
